import Mathlib

/-!
Shallow embedding of the Birds Biodiversity data pipeline (`src/data_io.py`)
and proofs about its specification.

Modelling conventions:
* A pandas cell that may be missing (`NaN` / `NaT`) is an `Option` value.
* Floats are modelled by `ℚ` (all counts involved are exact decimals);
  `NaN` is the `none` of `Option ℚ`.
* A pandas column carries its dtype: `Column.dtCol` is a `datetime64[ns]`
  column (each non-missing cell is its nanoseconds-since-epoch `int64`),
  `Column.numCol` is a numeric column, `Column.objCol` is an object/string
  column.  For an object column the outcome of pandas' parsers on each cell
  is recorded on the cell itself: `parseDT` is the result of
  `pd.to_datetime(·, errors := coerce)` (`some` nanoseconds when the text
  parses as a timestamp) and `parseNum` the result of
  `pd.to_numeric(·, errors := coerce)`.  An empty/blank cell is the cell
  with both outcomes `none`, since both parsers coerce it to missing.
* `dt_series.astype(np.int64)` maps `NaT` to the `int64` sentinel
  `iNaT = -2^63` (pandas 1.x semantics); `%` on numpy `int64` with a
  positive divisor returns a non-negative remainder, exactly Lean's `%`
  on `ℤ`.
-/

namespace Birds

/-- Date as produced by a successful `pd.to_datetime` parse of the `date`
column; only the year field is consumed downstream (`.dt.year`). -/
structure Date where
  year : Int
  month : Nat
  day : Nat
deriving DecidableEq

/-- Cell of a pandas object/string column, carrying the outcomes of the two
parsers the source applies to it: `parseDT` models
`pd.to_datetime(cell, errors := coerce)` as nanoseconds since the epoch,
`parseNum` models `pd.to_numeric(cell, errors := coerce)`. A blank or
missing cell has both fields `none`. -/
structure ObjCell where
  parseDT : Option Int
  parseNum : Option ℚ
deriving DecidableEq

/-- Column of the observations spreadsheet together with its pandas dtype:
datetime64 (cells are `int64` nanoseconds, `none` = `NaT`), numeric
(`none` = `NaN`), or object/string. -/
inductive Column where
  | dtCol (cells : List (Option Int))
  | numCol (cells : List (Option ℚ))
  | objCol (cells : List ObjCell)
deriving DecidableEq

/-- Number of cells of a column. -/
def Column.length : Column → Nat
  | .dtCol cells => cells.length
  | .numCol cells => cells.length
  | .objCol cells => cells.length

/-- Sentinel value that `dt_series.astype(np.int64)` produces for a `NaT`
cell: the minimal `int64`. -/
def iNaT : Int := -9223372036854775808

/-- Embedding of `extract_count_from_datetime` (src/data_io.py, lines
12-41).  Branch 1 (datetime dtype): `(dt_series.astype(np.int64) %
1000000000).astype(float)` — note `NaT` goes through the `iNaT` sentinel
and therefore yields a number, not a missing marker.  Branch 2 (numeric
dtype): `pd.to_numeric(·, errors := coerce).astype(float)`, the identity on
an already numeric column.  Branch 3 (object dtype): parse the whole
column with `pd.to_datetime(·, errors := coerce)`; if any cell parsed
(`dt_parsed.notna().any()`), start from an all-`NaN` series and fill in
`ns % 1000000000` at exactly the parsed positions; only if no cell parsed,
fall back to `pd.to_numeric` on the whole column. -/
def extract_count_from_datetime : Column → List (Option ℚ)
  | .dtCol cells =>
      cells.map (fun c => some (((c.getD iNaT % 1000000000 : Int) : ℚ)))
  | .numCol cells => cells
  | .objCol cells =>
      if cells.any (fun c => c.parseDT.isSome) then
        cells.map (fun c => c.parseDT.map (fun n => ((n % 1000000000 : Int) : ℚ)))
      else
        cells.map (fun c => c.parseNum)

/-- Embedding of `pd.to_numeric(col, errors := coerce)` as applied to each
count column in `load_excel_data` (src/data_io.py, lines 117-118).  On a
datetime64 column pandas reinterprets the `int64` view (so `NaT` becomes
the `iNaT` sentinel); on a numeric column it is the identity; on an object
column each cell becomes its numeric parse outcome. -/
def toNumericColumn : Column → List (Option ℚ)
  | .dtCol cells => cells.map (fun c => some ((c.getD iNaT : Int) : ℚ))
  | .numCol cells => cells
  | .objCol cells => cells.map (fun c => c.parseNum)

/-- Per-row fields of the renamed observations sheet other than the four
count columns: raw text cells (missing = `none`), the parse outcome of
`pd.to_datetime` on the `date` cell, and the wind reading. -/
structure RawMeta where
  observer : Option String
  transect : Option String
  species : Option String
  date : Option Date
  wind : Option ℚ
deriving DecidableEq

/-- Renamed observations table as it stands right before the count
conversion in `load_excel_data`: the four detection-method count columns
(`totaux` and the three unnamed columns) plus the remaining per-row
fields. -/
structure RawObsTable where
  cA : Column
  cV : Column
  cAV : Column
  cAVF : Column
  meta : List RawMeta

/-- Row of the observations table returned by `load_excel_data` /
consumed by `clean_observations`.  Each possibly-missing pandas cell is an
`Option`. -/
structure ObsRow where
  observer_name : Option String
  transect_name : Option String
  species_name : Option String
  date : Option Date
  year : Option Int
  wind : Option ℚ
  individual_count : Option ℚ
  observation_id : Option Nat
deriving DecidableEq

/-- Embedding of `str(cell)` as applied by `.astype(str)`: a missing cell
(`NaN`) stringifies to the literal text `nan`. -/
def astypeStr : Option String → String
  | none => "nan"
  | some s => s

/-- Removal of leading and trailing whitespace from a character list. -/
def stripChars (l : List Char) : List Char :=
  ((l.dropWhile Char.isWhitespace).reverse.dropWhile Char.isWhitespace).reverse

/-- Embedding of Python's `str.strip()` as applied by `.str.strip()`:
drops leading and trailing whitespace. -/
def stripStr (s : String) : String := ⟨stripChars s.data⟩

/-- Assembly of one output row of `load_excel_data` from its per-row raw
fields and the four decoded count cells (src/data_io.py, lines 120-130):
`individual_count` is `df_obs[count_cols].sum(axis=1)`, which skips `NaN`
(missing counts contribute 0, an all-missing row sums to 0); `year` is
`.dt.year` of the parsed date (missing iff the date is); the text columns
are `.astype(str).str.strip()`, hence always present. -/
def mkRow (m : RawMeta) (a v w f : Option ℚ) : ObsRow :=
  { observer_name := some (stripStr (astypeStr m.observer))
    transect_name := some (stripStr (astypeStr m.transect))
    species_name := some (stripStr (astypeStr m.species))
    date := m.date
    year := m.date.map (fun d => d.year)
    wind := m.wind
    individual_count := some (a.getD 0 + v.getD 0 + w.getD 0 + f.getD 0)
    observation_id := none }

/-- Rows built positionally from the per-row fields and the four decoded
count columns (the columns of a dataframe share its row index, so the
lists advance in lockstep). -/
def assembleRows : List RawMeta → List (Option ℚ) → List (Option ℚ) →
    List (Option ℚ) → List (Option ℚ) → List ObsRow
  | m :: ms, a :: la, v :: lv, w :: lw, f :: lf =>
      mkRow m a v w f :: assembleRows ms la lv lw lf
  | _, _, _, _, _ => []

/-- Embedding of the observations-sheet portion of `load_excel_data`
(src/data_io.py, lines 112-130): each of the four count columns is coerced
with `pd.to_numeric(·, errors := coerce)` (not with
`extract_count_from_datetime`), then each row is assembled by `mkRow`.
The species and GPS sheets and the file-existence check do not bear on the
claims and are omitted. -/
def load_excel_data (t : RawObsTable) : List ObsRow :=
  assembleRows t.meta (toNumericColumn t.cA) (toNumericColumn t.cV)
    (toNumericColumn t.cAV) (toNumericColumn t.cAVF)

/-- Wind correction applied row-wise by
`df_clean.loc[df_clean.wind < 0, "wind"] = np.nan` (src/data_io.py, lines
155-160): a negative wind reading becomes missing; a missing or
non-negative reading, and every other column, is untouched (`NaN < 0` is
false in pandas, so missing wind is not selected). -/
def windFixRow (r : ObsRow) : ObsRow :=
  match r.wind with
  | some w => if w < 0 then { r with wind := none } else r
  | none => r

/-- Row predicate of `df_clean[df_clean.individual_count > 0]`
(src/data_io.py, line 164): keeps a row iff its count is present and
positive (`NaN > 0` is false in pandas, so a missing count is dropped
here too). -/
def posCount (r : ObsRow) : Bool :=
  match r.individual_count with
  | some c => decide (0 < c)
  | none => false

/-- Row predicate of `df_clean.dropna(subset=essential_cols)`
(src/data_io.py, lines 169-172): keeps a row iff `year`, `species_name`,
`individual_count` and `transect_name` are all present. -/
def essentialsPresent (r : ObsRow) : Bool :=
  r.year.isSome && r.species_name.isSome &&
    r.individual_count.isSome && r.transect_name.isSome

/-- Embedding of `df_clean["observation_id"] = range(1, len(df_clean)+1)`
(src/data_io.py, line 178): the row at offset `i` of the surviving table
receives identifier `k + i`. -/
def assignIds : Nat → List ObsRow → List ObsRow
  | _, [] => []
  | k, r :: rs => { r with observation_id := some k } :: assignIds (k + 1) rs

/-- Embedding of `clean_observations` (src/data_io.py, lines 141-188):
wind correction, removal of non-positive counts, removal of rows missing
an essential field, then dense identifier assignment starting at 1.
The print statements are pure logging and are omitted. -/
def clean_observations (df : List ObsRow) : List ObsRow :=
  assignIds 1 (((df.map windFixRow).filter posCount).filter essentialsPresent)

/-- Modelled from the spec: the repository ships no Shannon-index code
under src/, so this follows §4.5 of the specification word for word.
Input is the per-species summed count vector of one year.  If the total
count is 0 the result is the explicit undefined marker `none`; otherwise
it is `-Σ p_i * ln p_i` over exactly the species with a positive count
(zero-count species are excluded before taking the logarithm), where
`p_i` is the species count divided by the year's total. -/
noncomputable def shannon_index (counts : List ℚ) : Option ℝ :=
  if counts.sum = 0 then none
  else
    some (-(((counts.filter (fun c => 0 < c)).map
      (fun c => ((c / counts.sum : ℚ) : ℝ) * Real.log ((c / counts.sum : ℚ) : ℝ))).sum))

/-! Helper lemmas shared by several claim proofs. -/

theorem windFixRow_frame (r : ObsRow) :
    (windFixRow r).observer_name = r.observer_name ∧
    (windFixRow r).transect_name = r.transect_name ∧
    (windFixRow r).species_name = r.species_name ∧
    (windFixRow r).date = r.date ∧
    (windFixRow r).year = r.year ∧
    (windFixRow r).individual_count = r.individual_count ∧
    (windFixRow r).observation_id = r.observation_id := by
  unfold windFixRow
  rcases hw : r.wind with _ | w
  · exact ⟨rfl, rfl, rfl, rfl, rfl, rfl, rfl⟩
  · by_cases h : w < 0 <;> simp [h]

theorem windFixRow_wind (r : ObsRow) :
    (windFixRow r).wind = (match r.wind with
      | some w => if w < 0 then none else some w
      | none => none) := by
  unfold windFixRow
  rcases hw : r.wind with _ | w
  · simp [hw]
  · by_cases h : w < 0 <;> simp [h, hw]

theorem assignIds_length (k : Nat) (l : List ObsRow) :
    (assignIds k l).length = l.length := by
  induction l generalizing k with
  | nil => rfl
  | cons r rs ih => simp [assignIds, ih]

theorem assignIds_mem (k : Nat) (l : List ObsRow) (r : ObsRow)
    (h : r ∈ assignIds k l) :
    ∃ r0 ∈ l, ∃ m : Nat, r = { r0 with observation_id := some m } := by
  induction l generalizing k with
  | nil => simp [assignIds] at h
  | cons x xs ih =>
      simp only [assignIds, List.mem_cons] at h
      rcases h with h | h
      · exact ⟨x, List.mem_cons_self x xs, k, h⟩
      · rcases ih (k + 1) h with ⟨r0, hr0, m, hm⟩
        exact ⟨r0, List.mem_cons_of_mem x hr0, m, hm⟩

theorem assignIds_ids (k : Nat) (l : List ObsRow) :
    (assignIds k l).map (fun r => r.observation_id)
      = (List.range l.length).map (fun i => some (i + k)) := by
  induction l generalizing k with
  | nil => rfl
  | cons x xs ih =>
      simp only [assignIds, List.map_cons, List.length_cons,
        List.range_succ_eq_map, List.map_map]
      refine congrArg₂ _ (by simp) ?_
      rw [ih (k + 1)]
      apply List.map_congr_left
      intro i _
      simp only [Function.comp]
      exact congrArg _ (by omega)

theorem assignIds_strip (k : Nat) (l : List ObsRow) :
    (assignIds k l).map (fun r => { r with observation_id := none })
      = l.map (fun r => { r with observation_id := none }) := by
  induction l generalizing k with
  | nil => rfl
  | cons x xs ih => simp [assignIds, ih]

theorem assembleRows_get (i : Nat) (ms : List RawMeta)
    (la lv lw lf : List (Option ℚ)) (m : RawMeta) (a v w f : Option ℚ)
    (hm : ms.get? i = some m) (ha : la.get? i = some a)
    (hv : lv.get? i = some v) (hw : lw.get? i = some w)
    (hf : lf.get? i = some f) :
    (assembleRows ms la lv lw lf).get? i = some (mkRow m a v w f) := by
  induction i generalizing ms la lv lw lf with
  | zero =>
      cases ms with
      | nil => simp at hm
      | cons m0 ms =>
        cases la with
        | nil => simp at ha
        | cons a0 la =>
          cases lv with
          | nil => simp at hv
          | cons v0 lv =>
            cases lw with
            | nil => simp at hw
            | cons w0 lw =>
              cases lf with
              | nil => simp at hf
              | cons f0 lf =>
                simp only [List.get?] at hm ha hv hw hf
                cases hm; cases ha; cases hv; cases hw; cases hf
                rfl
  | succ i ih =>
      cases ms with
      | nil => simp at hm
      | cons m0 ms =>
        cases la with
        | nil => simp at ha
        | cons a0 la =>
          cases lv with
          | nil => simp at hv
          | cons v0 lv =>
            cases lw with
            | nil => simp at hw
            | cons w0 lw =>
              cases lf with
              | nil => simp at hf
              | cons f0 lf =>
                simp only [List.get?] at hm ha hv hw hf ⊢
                exact ih ms la lv lw lf hm ha hv hw hf

theorem assembleRows_mem (r : ObsRow) :
    ∀ (ms : List RawMeta) (la lv lw lf : List (Option ℚ)),
      r ∈ assembleRows ms la lv lw lf →
      ∃ m a v w f, r = mkRow m a v w f := by
  intro ms
  induction ms with
  | nil => intro la lv lw lf h; simp [assembleRows] at h
  | cons m0 ms ih =>
      intro la lv lw lf h
      cases la with
      | nil => simp [assembleRows] at h
      | cons a0 la =>
        cases lv with
        | nil => simp [assembleRows] at h
        | cons v0 lv =>
          cases lw with
          | nil => simp [assembleRows] at h
          | cons w0 lw =>
            cases lf with
            | nil => simp [assembleRows] at h
            | cons f0 lf =>
              simp only [assembleRows, List.mem_cons] at h
              rcases h with h | h
              · exact ⟨m0, a0, v0, w0, f0, h⟩
              · exact ih la lv lw lf h

/-! Concrete inputs used by counterexamples and witnesses. -/

/-- Mixed/text column of the spec example: the first cell is the string
`2024-01-01T00:00:00.000000007`, which `pd.to_datetime` parses to
1704067200000000007 ns since the epoch and `pd.to_numeric` rejects; the
second is `12`, which fails the datetime parse but is numeric 12; the
third is `bad`, which both parsers reject. -/
def mixedCells : List ObjCell :=
  [⟨some 1704067200000000007, none⟩, ⟨none, some 12⟩, ⟨none, none⟩]

/-- Raw per-row fields with every cell missing. -/
def emptyMeta : RawMeta := ⟨none, none, none, none, none⟩

/-! Claim theorems. -/

/-- C1, counterexample: on the mixed column
`["2024-01-01T00:00:00.000000007", "12", "bad"]` the decoder returns
`[7.0, NaN, NaN]`, not the `[7.0, 12.0, NaN]` the claim states: because
one cell parses as a timestamp, the cells that do not parse are assigned
missing, and the numeric fallback is never consulted for them. -/
theorem C1_mixed_counterexample :
    extract_count_from_datetime (Column.objCol mixedCells)
        = [some (7 : ℚ), none, none] ∧
      extract_count_from_datetime (Column.objCol mixedCells)
        ≠ [some (7 : ℚ), some (12 : ℚ), none] := by
  constructor
  · decide
  · decide

/-- C1, amended: on a mixed/text column the two strategies never coexist
row-by-row.  If at least one cell parses as a timestamp, every cell that
parses decodes to its nanoseconds modulo one billion and every cell that
does not parse becomes missing; only when no cell at all parses as a
timestamp is the whole column coerced numerically.  In particular the
spec's example column decodes to `[7.0, NaN, NaN]`. -/
theorem C1_mixed_decode (cells : List ObjCell) :
    extract_count_from_datetime (Column.objCol cells)
        = (if cells.any (fun c => c.parseDT.isSome) then
            cells.map (fun c => c.parseDT.map (fun n => ((n % 1000000000 : Int) : ℚ)))
          else
            cells.map (fun c => c.parseNum)) ∧
      extract_count_from_datetime (Column.objCol mixedCells)
        = [some (7 : ℚ), none, none] := by
  exact ⟨rfl, by decide⟩

/-- C4: on a datetime-typed column, every non-missing cell with
nanoseconds-since-epoch `n` decodes to `float(n mod 1000000000)`. -/
theorem C4_datetime_decode (cells : List (Option Int)) (i : Nat) (n : Int)
    (h : cells.get? i = some (some n)) :
    (extract_count_from_datetime (Column.dtCol cells)).get? i
      = some (some ((n % 1000000000 : Int) : ℚ)) := by
  unfold extract_count_from_datetime
  rw [List.get?_map, h]
  rfl

/-- C4, witness: the timestamp 5 nanoseconds past the epoch decodes to
`5.0`. -/
theorem C4_datetime_decode_witness :
    (extract_count_from_datetime (Column.dtCol [some 5])).get? 0
      = some (some (5 : ℚ)) := by
  have h := C4_datetime_decode [some 5] 0 5 rfl
  simpa using h

/-- C9, counterexample: on a datetime-typed column a missing (`NaT`) cell
does not decode to a missing marker; it goes through the `int64` sentinel
`iNaT` and decodes to `float(iNaT mod 1000000000) = 145224192.0`. -/
theorem C9_nat_counterexample :
    extract_count_from_datetime (Column.dtCol [none])
        = [some (145224192 : ℚ)] ∧
      some (145224192 : ℚ) ≠ (none : Option ℚ) := by
  constructor
  · decide
  · decide

/-- C9, amended: the decoder is total and length-preserving, and on
numeric and object/string columns every blank or unparseable cell becomes
a missing marker; but on a datetime-typed column a missing (`NaT`) cell
decodes to the number `145224192.0` instead of staying missing. -/
theorem C9_totality (col : Column) (i : Nat) :
    (extract_count_from_datetime col).length = col.length ∧
      (∀ cells, col = Column.numCol cells → cells.get? i = some none →
        (extract_count_from_datetime col).get? i = some none) ∧
      (∀ cells, col = Column.objCol cells →
        cells.get? i = some ⟨none, none⟩ →
        (extract_count_from_datetime col).get? i = some none) ∧
      (∀ cells, col = Column.dtCol cells → cells.get? i = some none →
        (extract_count_from_datetime col).get? i
          = some (some (145224192 : ℚ))) := by
  refine ⟨?_, ?_, ?_, ?_⟩
  · cases col with
    | dtCol cells => simp [extract_count_from_datetime, Column.length]
    | numCol cells => simp [extract_count_from_datetime, Column.length]
    | objCol cells =>
        by_cases h : cells.any (fun c => c.parseDT.isSome) <;>
          simp [extract_count_from_datetime, Column.length, h]
  · rintro cells rfl h
    simpa [extract_count_from_datetime] using h
  · rintro cells rfl h
    simp only [extract_count_from_datetime]
    by_cases ha : cells.any (fun c => c.parseDT.isSome)
    · rw [if_pos ha, List.get?_map, h]
      rfl
    · rw [if_neg ha, List.get?_map, h]
      rfl
  · rintro cells rfl h
    unfold extract_count_from_datetime
    rw [List.get?_map, h]
    decide

/-- C9, witness: on the numeric column `[NaN]` the decoder keeps the
missing marker, and the output has the input's length. -/
theorem C9_totality_witness :
    (extract_count_from_datetime (Column.numCol [none])).length = 1 ∧
      (extract_count_from_datetime (Column.numCol [none])).get? 0
        = some none := by
  have h := C9_totality (Column.numCol [none]) 0
  exact ⟨h.1, h.2.1 [none] rfl rfl⟩

/-- One-row observation table whose first count column holds the text
`2024-01-01T00:00:00.000000007` (a timestamp-encoded count of 7) and
whose other count columns are a missing numeric cell. -/
def tsCountTable : RawObsTable :=
  { cA := Column.objCol [⟨some 1704067200000000007, none⟩]
    cV := Column.numCol [none]
    cAV := Column.numCol [none]
    cAVF := Column.numCol [none]
    meta := [emptyMeta] }

/-- C2, counterexample: `load_excel_data` coerces the count columns with
`pd.to_numeric`, not with `extract_count_from_datetime`.  On a count
column holding a timestamp-encoded text cell the two disagree: the
decoder recovers `7.0` while the assembler's coercion yields missing, so
the assembled `individual_count` is `0.0` rather than `7.0`. -/
theorem C2_assembler_counterexample :
    toNumericColumn tsCountTable.cA
        ≠ extract_count_from_datetime tsCountTable.cA ∧
      toNumericColumn tsCountTable.cA = [none] ∧
      extract_count_from_datetime tsCountTable.cA = [some (7 : ℚ)] ∧
      (load_excel_data tsCountTable).map (fun r => r.individual_count)
        = [some (0 : ℚ)] := by
  refine ⟨by decide, by decide, by decide, ?_⟩
  simp only [load_excel_data, tsCountTable, toNumericColumn, assembleRows,
    mkRow, List.map_cons, List.map_nil]
  norm_num

/-- C2, amended: each count column feeding `individual_count` is decoded
with `pd.to_numeric(·, errors := coerce)`, not with the Count Decoder;
the two coincide on a numeric-typed column, on an object/string column
none of whose cells parses as a timestamp, and on a datetime-typed column
all of whose cells are present with nanoseconds in `[0, 10^9)` (the
near-epoch encoding the repository uses for counts, where the `int64`
view already equals the nanoseconds modulo one billion) — but not on a
text column bearing timestamp-parsable values, where the coercion yields
missing while the decoder recovers the count. -/
theorem C2_assembler_decode (t : RawObsTable) (ncells : List (Option ℚ))
    (ocells : List ObjCell) (dcells : List (Option Int))
    (h : ocells.all (fun c => c.parseDT.isNone) = true)
    (hd : ∀ c ∈ dcells, ∃ n, c = some n ∧ 0 ≤ n ∧ n < 1000000000) :
    load_excel_data t
        = assembleRows t.meta (toNumericColumn t.cA) (toNumericColumn t.cV)
            (toNumericColumn t.cAV) (toNumericColumn t.cAVF) ∧
      toNumericColumn (Column.numCol ncells)
        = extract_count_from_datetime (Column.numCol ncells) ∧
      toNumericColumn (Column.objCol ocells)
        = extract_count_from_datetime (Column.objCol ocells) ∧
      toNumericColumn (Column.dtCol dcells)
        = extract_count_from_datetime (Column.dtCol dcells) := by
  refine ⟨rfl, rfl, ?_, ?_⟩
  · have ha : ocells.any (fun c => c.parseDT.isSome) = false := by
      rw [List.any_eq_false]
      intro c hc
      have hc2 := List.all_eq_true.mp h c hc
      simp only [Option.isNone_iff_eq_none] at hc2
      simp [hc2]
    simp only [extract_count_from_datetime, toNumericColumn, ha,
      Bool.false_eq_true, if_false]
  · simp only [extract_count_from_datetime, toNumericColumn]
    apply List.map_congr_left
    intro c hc
    obtain ⟨n, rfl, hn0, hn1⟩ := hd c hc
    simp only [Option.getD_some]
    rw [Int.emod_eq_of_lt hn0 hn1]

/-- C2, witness for the amended claim: on the numeric column `[3.0]`, the
text column `["12"]` (no timestamp parse) and the datetime column holding
the single timestamp 5 nanoseconds past the epoch, the assembler's
coercion and the Count Decoder agree. -/
theorem C2_assembler_decode_witness :
    toNumericColumn (Column.numCol [some (3 : ℚ)])
        = extract_count_from_datetime (Column.numCol [some (3 : ℚ)]) ∧
      toNumericColumn (Column.objCol [⟨none, some (12 : ℚ)⟩])
        = extract_count_from_datetime (Column.objCol [⟨none, some (12 : ℚ)⟩]) ∧
      toNumericColumn (Column.dtCol [some 5])
        = extract_count_from_datetime (Column.dtCol [some 5]) := by
  have h := C2_assembler_decode tsCountTable [some (3 : ℚ)]
    [⟨none, some (12 : ℚ)⟩] [some 5] (by decide)
    (by
      intro c hc
      rw [List.mem_singleton] at hc
      exact ⟨5, hc, by norm_num, by norm_num⟩)
  exact ⟨h.2.1, h.2.2.1, h.2.2.2⟩

/-- C7: `individual_count` is the element-wise sum of the four decoded
count cells of the row, with a missing cell contributing 0: the row at
offset `i` of the assembled table is `mkRow` of the four decoded cells at
offset `i`, its count is their `getD 0` sum, sub-counts
`[2, NaN, NaN, NaN]` sum to `2.0`, and four missing sub-counts sum to
`0.0` (present, not missing). -/
theorem C7_individual_count (t : RawObsTable) (i : Nat) (m : RawMeta)
    (a v w f : Option ℚ)
    (hm : t.meta.get? i = some m)
    (ha : (toNumericColumn t.cA).get? i = some a)
    (hv : (toNumericColumn t.cV).get? i = some v)
    (hw : (toNumericColumn t.cAV).get? i = some w)
    (hf : (toNumericColumn t.cAVF).get? i = some f) :
    (load_excel_data t).get? i = some (mkRow m a v w f) ∧
      (mkRow m a v w f).individual_count
        = some (a.getD 0 + v.getD 0 + w.getD 0 + f.getD 0) ∧
      (mkRow m (some 2) none none none).individual_count = some (2 : ℚ) ∧
      (mkRow m none none none none).individual_count = some (0 : ℚ) := by
  refine ⟨assembleRows_get i t.meta _ _ _ _ m a v w f hm ha hv hw hf,
    rfl, ?_, ?_⟩
  · simp [mkRow]
  · simp [mkRow]

/-- C7, witness: in a one-row table whose decoded sub-counts are
`[2, NaN, NaN, NaN]` the assembled row carries `individual_count = 2.0`. -/
theorem C7_individual_count_witness :
    (load_excel_data
        { cA := Column.numCol [some (2 : ℚ)], cV := Column.numCol [none]
          cAV := Column.numCol [none], cAVF := Column.numCol [none]
          meta := [emptyMeta] }).get? 0
      = some (mkRow emptyMeta (some 2) none none none) ∧
      (mkRow emptyMeta (some 2) none none none).individual_count
        = some (2 : ℚ) := by
  have h := C7_individual_count
    { cA := Column.numCol [some (2 : ℚ)], cV := Column.numCol [none]
      cAV := Column.numCol [none], cAVF := Column.numCol [none]
      meta := [emptyMeta] } 0 emptyMeta (some 2) none none none
    rfl rfl rfl rfl rfl
  exact ⟨h.1, h.2.2.1⟩

theorem essentialsPresent_windFixRow (r : ObsRow) :
    essentialsPresent (windFixRow r) = essentialsPresent r := by
  obtain ⟨_, h2, h3, _, h5, h6, _⟩ := windFixRow_frame r
  simp [essentialsPresent, h2, h3, h5, h6]

/-- Sample observation row used by concrete tables: a fixed transect,
date, year and wind, with the observer name, count and species under
test. -/
def sampleRow (name : String) (ic : Option ℚ) (sp : Option String) : ObsRow :=
  { observer_name := some name
    transect_name := some "T1"
    species_name := sp
    date := some ⟨2020, 6, 1⟩
    year := some 2020
    wind := some 1
    individual_count := ic
    observation_id := none }

/-- Ten-row table of the spec's Validity Filter example: three rows with
non-positive counts and one further row with a missing species name. -/
def exTable10 : List ObsRow :=
  [ sampleRow "r01" (some 2) (some "lark"),
    sampleRow "r02" (some 0) (some "lark"),
    sampleRow "r03" (some 5) (some "wren"),
    sampleRow "r04" (some 1) (some "wren"),
    sampleRow "r05" (some (-3)) (some "crow"),
    sampleRow "r06" (some 4) (some "crow"),
    sampleRow "r07" (some 2) none,
    sampleRow "r08" (some 7) (some "dove"),
    sampleRow "r09" (some 0) (some "dove"),
    sampleRow "r10" (some 9) (some "gull") ]

/-- Expected cleaning of `exTable10`: the six surviving rows in their
original relative order, carrying identifiers 1 through 6. -/
def exTable10cleaned : List ObsRow :=
  [ { sampleRow "r01" (some 2) (some "lark") with observation_id := some 1 },
    { sampleRow "r03" (some 5) (some "wren") with observation_id := some 2 },
    { sampleRow "r04" (some 1) (some "wren") with observation_id := some 3 },
    { sampleRow "r06" (some 4) (some "crow") with observation_id := some 4 },
    { sampleRow "r08" (some 7) (some "dove") with observation_id := some 5 },
    { sampleRow "r10" (some 9) (some "gull") with observation_id := some 6 } ]

/-- C5: every row retained by `clean_observations` has a present,
positive `individual_count` and present `year`, `species_name` and
`transect_name`; the function is a total Lean definition, so it
terminates on every input with a (possibly empty) table. -/
theorem C5_clean_invariant (df : List ObsRow) (r : ObsRow)
    (h : r ∈ clean_observations df) :
    (∃ c, r.individual_count = some c ∧ 0 < c) ∧
      r.year ≠ none ∧ r.species_name ≠ none ∧ r.transect_name ≠ none := by
  obtain ⟨r0, hr0, m, rfl⟩ := assignIds_mem 1 _ r h
  have h2 := List.mem_filter.mp hr0
  have h3 := List.mem_filter.mp h2.1
  have hpos := h3.2
  have hess := h2.2
  simp only [essentialsPresent, Bool.and_eq_true, Option.isSome_iff_exists]
    at hess
  obtain ⟨⟨⟨⟨y, hy⟩, ⟨s, hs⟩⟩, _⟩, ⟨tn, ht⟩⟩ := hess
  refine ⟨?_, ?_, ?_, ?_⟩
  · rcases hic : r0.individual_count with _ | c
    · rw [posCount, hic] at hpos
      exact absurd hpos (by simp)
    · rw [posCount, hic] at hpos
      exact ⟨c, rfl, of_decide_eq_true hpos⟩
  · show r0.year ≠ none
    simp [hy]
  · show r0.species_name ≠ none
    simp [hs]
  · show r0.transect_name ≠ none
    simp [ht]

/-- C5, witness: a well-formed single-row table survives cleaning, and
the cleaned row satisfies the invariant. -/
theorem C5_clean_invariant_witness :
    (∃ c, ({ sampleRow "w01" (some 2) (some "lark") with
        observation_id := some 1 } : ObsRow).individual_count
          = some c ∧ 0 < c) ∧
      ({ sampleRow "w01" (some 2) (some "lark") with
        observation_id := some 1 } : ObsRow).year ≠ none ∧
      ({ sampleRow "w01" (some 2) (some "lark") with
        observation_id := some 1 } : ObsRow).species_name ≠ none ∧
      ({ sampleRow "w01" (some 2) (some "lark") with
        observation_id := some 1 } : ObsRow).transect_name ≠ none := by
  exact C5_clean_invariant [sampleRow "w01" (some 2) (some "lark")]
    { sampleRow "w01" (some 2) (some "lark") with observation_id := some 1 }
    (by decide)

/-- C6: `clean_observations` stages as described — wind correction, then
removal of the rows without a positive `individual_count`, then removal
of the rows missing an essential field (a missing count is already gone
after the first removal, since `NaN > 0` is false), then dense
identifiers `1..n` in surviving order; the surviving rows keep the input
relative order (they form a sublist of the wind-corrected input), and the
spec's 10-row example yields exactly the 6 expected rows with identifiers
1 through 6. -/
theorem C6_clean_staging (df : List ObsRow) :
    clean_observations df
        = assignIds 1 ((df.map windFixRow).filter
            (fun r => posCount r && essentialsPresent r)) ∧
      (clean_observations df).map (fun r => r.observation_id)
        = (List.range (clean_observations df).length).map
            (fun i => some (i + 1)) ∧
      List.Sublist
        ((clean_observations df).map
          (fun r => { r with observation_id := none }))
        ((df.map windFixRow).map
          (fun r => { r with observation_id := none })) ∧
      clean_observations exTable10 = exTable10cleaned := by
  have h1 : clean_observations df
      = assignIds 1 ((df.map windFixRow).filter
          (fun r => posCount r && essentialsPresent r)) := by
    unfold clean_observations
    rw [List.filter_filter]
    refine congrArg _ (List.filter_congr ?_)
    intro x _
    exact Bool.and_comm _ _
  refine ⟨h1, ?_, ?_, by decide⟩
  · rw [h1, assignIds_ids, assignIds_length]
  · rw [h1, assignIds_strip]
    exact List.Sublist.map _ (List.filter_sublist _)

/-- C8: the wind-correction stage removes no row (it is a per-row map),
replaces exactly the negative wind readings with missing, and leaves a
missing or non-negative reading and every other column of the row
untouched. -/
theorem C8_wind_correction (df : List ObsRow) (r : ObsRow) :
    (df.map windFixRow).length = df.length ∧
      (windFixRow r).wind = (match r.wind with
        | some w => if w < 0 then none else some w
        | none => none) ∧
      (windFixRow r).observer_name = r.observer_name ∧
      (windFixRow r).transect_name = r.transect_name ∧
      (windFixRow r).species_name = r.species_name ∧
      (windFixRow r).date = r.date ∧
      (windFixRow r).year = r.year ∧
      (windFixRow r).individual_count = r.individual_count ∧
      (windFixRow r).observation_id = r.observation_id := by
  obtain ⟨h1, h2, h3, h4, h5, h6, h7⟩ := windFixRow_frame r
  exact ⟨List.length_map df windFixRow, windFixRow_wind r,
    h1, h2, h3, h4, h5, h6, h7⟩

/-- C10: every row assembled by `load_excel_data` has present
`observer_name`, `transect_name`, `species_name` (a missing text cell is
stringified by `astype(str)` to the literal `"nan"`) and a present
`individual_count`; consequently the essential-fields stage of the
cleaning can reject such a row only because `year` is missing. -/
theorem C10_loaded_fields_present (t : RawObsTable) (r : ObsRow)
    (h : r ∈ load_excel_data t) :
    r.observer_name ≠ none ∧ r.transect_name ≠ none ∧
      r.species_name ≠ none ∧ r.individual_count ≠ none ∧
      (essentialsPresent (windFixRow r) = true ↔ r.year ≠ none) ∧
      (∀ (m : RawMeta) (a v w f : Option ℚ), m.species = none →
        (mkRow m a v w f).species_name = some "nan") := by
  obtain ⟨m, a, v, w, f, rfl⟩ := assembleRows_mem r _ _ _ _ _ h
  refine ⟨by simp [mkRow], by simp [mkRow], by simp [mkRow],
    by simp [mkRow], ?_, ?_⟩
  · rw [essentialsPresent_windFixRow]
    simp [essentialsPresent, mkRow, Option.ne_none_iff_isSome]
  · intro m0 a0 v0 w0 f0 hm0
    simp only [mkRow, hm0, astypeStr]
    exact congrArg some (by decide)

/-- C10, witness: on a one-row raw table with every per-row cell missing,
the loaded row has all text fields and the count present, and fails the
essential-fields check only through its missing year. -/
theorem C10_loaded_fields_present_witness :
    (mkRow emptyMeta (some 1) none none none).observer_name ≠ none ∧
      (mkRow emptyMeta (some 1) none none none).transect_name ≠ none ∧
      (mkRow emptyMeta (some 1) none none none).species_name ≠ none ∧
      (mkRow emptyMeta (some 1) none none none).individual_count ≠ none ∧
      (essentialsPresent (windFixRow (mkRow emptyMeta (some 1) none none none))
          = true
        ↔ (mkRow emptyMeta (some 1) none none none).year ≠ none) := by
  have h := C10_loaded_fields_present
    { cA := Column.numCol [some 1], cV := Column.numCol [none]
      cAV := Column.numCol [none], cAVF := Column.numCol [none]
      meta := [emptyMeta] }
    (mkRow emptyMeta (some 1) none none none)
    (by
      show mkRow emptyMeta (some 1) none none none
        ∈ [mkRow emptyMeta (some 1) none none none]
      exact List.mem_singleton.mpr rfl)
  exact ⟨h.1, h.2.1, h.2.2.1, h.2.2.2.1, h.2.2.2.2.1⟩

/-- C3: the Shannon index of a species-count vector with nonzero total is
`-Σ p_i * ln p_i` over exactly the species with a positive count; the
vector `[1, 1]` (two species with one individual each) has index `ln 2`;
a single species holding all `n > 0` individuals has index `0`; and a
zero total yields the explicit undefined marker `none` — by type, never
`0.0` and never an exception. -/
theorem C3_shannon (counts : List ℚ) (n : ℚ) :
    (counts.sum = 0 → shannon_index counts = none) ∧
      (counts.sum ≠ 0 → shannon_index counts
        = some (-(((counts.filter (fun c => 0 < c)).map
            (fun c => ((c / counts.sum : ℚ) : ℝ)
              * Real.log ((c / counts.sum : ℚ) : ℝ))).sum))) ∧
      (0 < n → shannon_index [n] = some 0) ∧
      shannon_index [1, 1] = some (Real.log 2) := by
  refine ⟨?_, ?_, ?_, ?_⟩
  · intro h
    simp [shannon_index, h]
  · intro h
    simp [shannon_index, h]
  · intro h
    have hn : n ≠ 0 := ne_of_gt h
    have hsum : ([n].sum : ℚ) = n := by simp
    simp only [shannon_index, hsum, hn, if_false]
    have hfil : [n].filter (fun c => 0 < c) = [n] := by
      simp [List.filter, h]
    rw [hfil]
    have hnR : (n : ℝ) ≠ 0 := by exact_mod_cast hn
    simp [div_self hnR, Real.log_one]
  · have hsum : ([1, 1] : List ℚ).sum = 2 := by norm_num
    simp only [shannon_index, hsum]
    rw [if_neg (by norm_num)]
    have hfil : ([1, 1] : List ℚ).filter (fun c => 0 < c) = [1, 1] := by
      decide
    rw [hfil]
    have hv : (((1 : ℚ) / 2 : ℚ) : ℝ) = (2 : ℝ)⁻¹ := by
      push_cast
      norm_num
    simp only [List.map_cons, List.map_nil, List.sum_cons, List.sum_nil, hv,
      Real.log_inv]
    ring_nf

/-- C3, witness: the zero-total vector `[0]` gets the undefined marker,
and the single-species vector `[3]` gets index `0`. -/
theorem C3_shannon_witness :
    shannon_index [0] = none ∧ shannon_index [3] = some 0 := by
  have h := C3_shannon [0] 3
  exact ⟨h.1 (by norm_num), h.2.2.1 (by norm_num)⟩

end Birds
